import Mathlib

/-!
Verification of the `listhid` HID-enumeration library (src/src/lib.rs,
src/src/win32/mod.rs) against its natural-language specification.

The OS (Win32 SetupDi / HidD / file API) is modelled as an explicit oracle
`OsEnv` that answers every OS call the program makes; each Rust function is
embedded as a Lean function over that oracle.  A function that can both
return a `Result` and panic (via `unwrap`) is given the three-valued outcome
type `POutcome`: `ok` (Rust `Ok`), `err` (Rust `Err` carrying the
`GetLastError` / `last_os_error` code as a `Nat`), `panicked` (a Rust panic).
Portable strings are represented by their UTF-16 code-unit lists (`WStr`);
conversion to Rust's `String` succeeds exactly when the unit list is valid
UTF-16 (no unpaired surrogates), which is when
`OsString::from_wide(..).into_string().unwrap()` does not panic.
-/

/-- Windows sentinel: terminates an indexed enumeration loop (winerror.h). -/
def ERROR_NO_MORE_ITEMS : Nat := 259

/-- Windows sentinel: first-phase size probe of a two-phase query (winerror.h). -/
def ERROR_INSUFFICIENT_BUFFER : Nat := 122

/-- Registry property selector for the physical-device-object name (setupapi.h). -/
def SPDRP_PHYSICAL_DEVICE_OBJECT_NAME : Nat := 14

/-- SetupDiGetClassDevsW flag (setupapi.h). -/
def DIGCF_PRESENT : Nat := 2

/-- SetupDiGetClassDevsW flag (setupapi.h). -/
def DIGCF_ALLCLASSES : Nat := 4

/-- SetupDiGetClassDevsW flag (setupapi.h). -/
def DIGCF_DEVICEINTERFACE : Nat := 16

/-- CreateFileW creation disposition (fileapi.h). -/
def OPEN_EXISTING : Nat := 3

/-- CreateFileW share flag (winnt.h). -/
def FILE_SHARE_READ : Nat := 1

/-- CreateFileW share flag (winnt.h). -/
def FILE_SHARE_WRITE : Nat := 2

/-- CreateFileW attribute flag (winnt.h). -/
def FILE_ATTRIBUTE_NORMAL : Nat := 128

/-- Fixed WCHAR buffer size used by the two HidD string queries
(src/src/win32/mod.rs lines 305 and 320). -/
def MAXSIZE : Nat := 127

/-- A platform wide string, as its list of UTF-16 code units. -/
abbrev WStr := List Nat

/-- High-surrogate UTF-16 code unit (0xD800-0xDBFF). -/
def isHighSurrogate (c : Nat) : Bool := decide (55296 ≤ c ∧ c ≤ 56319)

/-- Low-surrogate UTF-16 code unit (0xDC00-0xDFFF). -/
def isLowSurrogate (c : Nat) : Bool := decide (56320 ≤ c ∧ c ≤ 57343)

/-- Valid UTF-16: every high surrogate is immediately followed by a low
surrogate and no low surrogate appears unpaired.  This is exactly the
condition under which `OsString::from_wide(units).into_string()` returns `Ok`. -/
def validUtf16 : List Nat → Bool
  | [] => true
  | [c] => !(isHighSurrogate c || isLowSurrogate c)
  | c :: c2 :: rest =>
    if isHighSurrogate c then isLowSurrogate c2 && validUtf16 rest
    else !(isLowSurrogate c) && validUtf16 (c2 :: rest)

/-- Embeds `lpcwstr_to_string` (src/src/win32/mod.rs lines 57-65): read
`length` units, truncate at the first NUL (`split(|&v| v == 0).next()`), then
`OsString::from_wide(..).into_string().unwrap()`.  `none` models the `unwrap`
panic on a unit sequence that is not valid Unicode. -/
def lpcwstr_to_string (wide_string : WStr) (length : Nat) : Option WStr :=
  let slice := (wide_string.take length).takeWhile (fun c => c != 0)
  if validUtf16 slice then some slice else none

/-- Contents of a zero-initialised buffer of `n` cells after the OS wrote the
cell list `w` into it: the first `n` cells of `w`, the rest still zero. -/
def filledBuffer (n : Nat) (w : List Nat) : List Nat :=
  w.take n ++ List.replicate (n - w.length) 0

/-- Reinterpret a little-endian byte buffer as WCHARs
(`buffer.as_mut_ptr() as PWCHAR`, src/src/win32/mod.rs line 298). -/
def bytesToWide : List Nat → List Nat
  | b0 :: b1 :: rest => (b0 + 256 * b1) :: bytesToWide rest
  | _ => []

/-- Model of winapi `SP_DEVINFO_DATA`: the one field the program reads. -/
structure SP_DEVINFO_DATA where
  DevInst : Nat
deriving DecidableEq

/-- Model of winapi `SP_DEVICE_INTERFACE_DATA`: an opaque interface record,
identified abstractly. -/
structure SP_DEVICE_INTERFACE_DATA where
  id : Nat
deriving DecidableEq

/-- `DeviceInterfaceDetail` (src/src/win32/mod.rs lines 52-55). -/
structure DeviceInterfaceDetail where
  device_path : WStr
  device_info_data : SP_DEVINFO_DATA
deriving DecidableEq

/-- `HIDD_ATTRIBUTES` (winapi): the two fields the program reads. -/
structure HIDD_ATTRIBUTES where
  VendorID : Nat
  ProductID : Nat
deriving DecidableEq

/-- `HidDevice` (src/src/lib.rs lines 4-13). -/
structure HidDevice where
  path : WStr
  product_id : Nat
  vendor_id : Nat
  product_string : Option WStr
  serial_number_string : Option WStr
  dev_inst : Option Nat
  pdo_name : Option WStr
deriving DecidableEq

/-- `DeviceData` (src/src/lib.rs lines 15-19). -/
structure DeviceData where
  interface_data : SP_DEVICE_INTERFACE_DATA
  info_data : Option SP_DEVINFO_DATA
deriving DecidableEq

/-- One answer of an indexed enumeration call: the call returned success with
an entry, or returned FALSE with this `GetLastError` code. -/
inductive EnumStep (α : Type) where
  | success : α → EnumStep α
  | failure : Nat → EnumStep α
deriving DecidableEq

/-- Outcome of running a piece of Rust code: `Ok` value, `Err` with OS error
code, or a panic. -/
inductive POutcome (α : Type) where
  | ok : α → POutcome α
  | err : Nat → POutcome α
  | panicked : POutcome α
deriving DecidableEq

/-- Sequencing of Rust code: `?` propagates `Err`, a panic propagates always. -/
def POutcome.bind {α β : Type} : POutcome α → (α → POutcome β) → POutcome β
  | POutcome.ok a, f => f a
  | POutcome.err e, _ => POutcome.err e
  | POutcome.panicked, _ => POutcome.panicked

/-- OS answer to the first (size-probe) call of
`SetupDiGetDeviceInterfaceDetailW`: the BOOL result, the `GetLastError`
code after it, and the value left in `required_size`. -/
structure ProbeAnswer where
  retOk : Bool
  lastError : Nat
  requiredSize : Nat

/-- OS answer to the second (fill) call of `SetupDiGetDeviceInterfaceDetailW`:
the BOOL result, the `GetLastError` code, the WCHARs written to the
`DevicePath` region of the buffer, and the `SP_DEVINFO_DATA` it filled. -/
structure FillAnswer where
  retOk : Bool
  lastError : Nat
  pathUnits : List Nat
  infoData : SP_DEVINFO_DATA

/-- OS answer to the first call of `SetupDiGetDeviceRegistryPropertyW`. -/
structure RegProbeAnswer where
  retOk : Bool
  lastError : Nat
  requiredSize : Nat

/-- OS answer to the second call of `SetupDiGetDeviceRegistryPropertyW`:
the BOOL result, the `GetLastError` code, and the bytes written on success. -/
structure RegFillAnswer where
  retOk : Bool
  lastError : Nat
  data : List Nat

/-- The OS oracle: one deterministic answer for every OS call the program can
make during one scan.  Enumeration answers are the responses to indices
0, 1, 2, ...; a trace ending without an explicit sentinel behaves as the
"no more items" sentinel (a device set is finite).  Handle-carrying queries
are keyed by the device path the handle was opened on. -/
structure OsEnv where
  getClassDevs : Nat → Except Nat Unit
  enumInfoSteps : List (EnumStep SP_DEVINFO_DATA)
  enumInterfaceSteps : Option SP_DEVINFO_DATA → List (EnumStep SP_DEVICE_INTERFACE_DATA)
  detailProbe : SP_DEVICE_INTERFACE_DATA → ProbeAnswer
  detailFill : SP_DEVICE_INTERFACE_DATA → Nat → FillAnswer
  regProbe : SP_DEVINFO_DATA → Nat → RegProbeAnswer
  regFill : SP_DEVINFO_DATA → Nat → Nat → RegFillAnswer
  createFile : WStr → Nat → Nat → Nat → Nat → Except Nat Unit
  attributes : WStr → Except Nat HIDD_ATTRIBUTES
  productString : WStr → Option (List Nat)
  serialString : WStr → Option (List Nat)

/-- Embeds `setup_di_get_class_devs` (src/src/win32/mod.rs lines 71-83):
`INVALID_HANDLE_VALUE` becomes `err`, any other handle `ok`.  The three
pointer arguments are null at the only call site and are not modelled. -/
def setup_di_get_class_devs (env : OsEnv) (flags : Nat) : POutcome Unit :=
  match env.getClassDevs flags with
  | Except.error e => POutcome.err e
  | Except.ok _ => POutcome.ok ()

/-- The indexed-until-sentinel loop shared verbatim by
`setup_di_enum_device_info` (src/src/win32/mod.rs lines 91-110) and
`setup_di_enum_device_interfaces` (lines 123-144): starting at index 0, each
call either yields one entry (collected, index incremented), or fails; on
failure, `GetLastError() == ERROR_NO_MORE_ITEMS` breaks the loop with the
entries collected so far, and any other code returns that error, discarding
the collected entries. -/
def enumLoop {α : Type} : List (EnumStep α) → POutcome (List α)
  | [] => POutcome.ok []
  | EnumStep.failure code :: _ =>
    if code = ERROR_NO_MORE_ITEMS then POutcome.ok [] else POutcome.err code
  | EnumStep.success a :: rest =>
    POutcome.bind (enumLoop rest) (fun l => POutcome.ok (a :: l))

/-- Embeds `setup_di_enum_device_info` (src/src/win32/mod.rs lines 85-113). -/
def setup_di_enum_device_info (env : OsEnv) : POutcome (List SP_DEVINFO_DATA) :=
  enumLoop env.enumInfoSteps

/-- Embeds `setup_di_enum_device_interfaces` (src/src/win32/mod.rs
lines 115-147); `device_info_data` is a possibly-null pointer, modelled as an
`Option`. -/
def setup_di_enum_device_interfaces (env : OsEnv)
    (device_info_data : Option SP_DEVINFO_DATA) :
    POutcome (List SP_DEVICE_INTERFACE_DATA) :=
  enumLoop (env.enumInterfaceSteps device_info_data)

/-- Embeds `setup_di_get_device_interface_detail` (src/src/win32/mod.rs
lines 149-203).  First call: null buffer, size 0; a failure whose
`GetLastError` is not `ERROR_INSUFFICIENT_BUFFER` is returned as `Err`.
Then a zeroed buffer of `required_size` bytes is allocated and the second
call issued; its failure is returned as `Err`.  On success the device path is
decoded from the `DevicePath` region, `(required_size - 4) / 2` WCHARs
(4 = size of DWORD, 2 = size of WCHAR), and returned together with the
`SP_DEVINFO_DATA` the call filled. -/
def setup_di_get_device_interface_detail (env : OsEnv)
    (interface_data : SP_DEVICE_INTERFACE_DATA) : POutcome DeviceInterfaceDetail :=
  let probe := env.detailProbe interface_data
  if probe.retOk = false ∧ probe.lastError ≠ ERROR_INSUFFICIENT_BUFFER then
    POutcome.err probe.lastError
  else
    let fill := env.detailFill interface_data probe.requiredSize
    if fill.retOk = false then POutcome.err fill.lastError
    else
      let path_size := (probe.requiredSize - 4) / 2
      match lpcwstr_to_string (filledBuffer path_size fill.pathUnits) path_size with
      | none => POutcome.panicked
      | some s => POutcome.ok { device_path := s, device_info_data := fill.infoData }

/-- Embeds `create_file` (src/src/win32/mod.rs lines 205-230), keyed by path
and the DWORD arguments; `INVALID_HANDLE_VALUE` becomes `err`. -/
def create_file (env : OsEnv) (file_name : WStr) (desired_access share_mode
    creation_disposition flags_and_attributes : Nat) : POutcome Unit :=
  match env.createFile file_name desired_access share_mode creation_disposition
      flags_and_attributes with
  | Except.error e => POutcome.err e
  | Except.ok _ => POutcome.ok ()

/-- Embeds `hid_d_get_attributes` (src/src/win32/mod.rs lines 232-243): a
FALSE return becomes `Err(last_os_error)`.  The handle is identified by the
path it was opened on. -/
def hid_d_get_attributes (env : OsEnv) (path : WStr) : POutcome HIDD_ATTRIBUTES :=
  match env.attributes path with
  | Except.error e => POutcome.err e
  | Except.ok attr => POutcome.ok attr

/-- Embeds `setup_di_get_device_registry_property` (src/src/win32/mod.rs
lines 245-278).  Both `SetupDiGetDeviceRegistryPropertyW` calls are issued but
their BOOL results and `GetLastError` are IGNORED by the source: the function
always returns `Ok` with the buffer — the zeroed allocation of
`required_size` bytes, overwritten by the second call only if that call
succeeded. -/
def setup_di_get_device_registry_property (env : OsEnv)
    (device_info_data : SP_DEVINFO_DATA) (property : Nat) : POutcome (List Nat) :=
  let probe := env.regProbe device_info_data property
  let fill := env.regFill device_info_data property probe.requiredSize
  let buffer :=
    if fill.retOk then filledBuffer probe.requiredSize fill.data
    else List.replicate probe.requiredSize 0
  POutcome.ok buffer

/-- Embeds `get_pdo_name` (src/src/win32/mod.rs lines 280-301): `None` when
no parent info record was supplied; otherwise the registry property
`SPDRP_PHYSICAL_DEVICE_OBJECT_NAME` is read (an `Err` from the helper would be
absorbed as `None`), the byte buffer is reinterpreted as `len / 2` WCHARs and
decoded, and the result wrapped in `Some`. -/
def get_pdo_name (env : OsEnv) (device_info_data : Option SP_DEVINFO_DATA) :
    POutcome (Option WStr) :=
  match device_info_data with
  | none => POutcome.ok none
  | some info =>
    match setup_di_get_device_registry_property env info
        SPDRP_PHYSICAL_DEVICE_OBJECT_NAME with
    | POutcome.err _ => POutcome.ok none
    | POutcome.panicked => POutcome.panicked
    | POutcome.ok buffer =>
      match lpcwstr_to_string (bytesToWide buffer) (buffer.length / 2) with
      | none => POutcome.panicked
      | some s => POutcome.ok (some s)

/-- Embeds `hid_d_get_product_string` (src/src/win32/mod.rs lines 303-316):
one call with a zeroed fixed buffer of `MAXSIZE` WCHARs; FALSE is absorbed as
`None`, success decodes the whole buffer (truncating at the first NUL). -/
def hid_d_get_product_string (env : OsEnv) (path : WStr) : POutcome (Option WStr) :=
  match env.productString path with
  | none => POutcome.ok none
  | some w =>
    match lpcwstr_to_string (filledBuffer MAXSIZE w) MAXSIZE with
    | none => POutcome.panicked
    | some s => POutcome.ok (some s)

/-- Embeds `hid_d_get_serial_number_string` (src/src/win32/mod.rs
lines 318-331), same shape as the product-string query. -/
def hid_d_get_serial_number_string (env : OsEnv) (path : WStr) :
    POutcome (Option WStr) :=
  match env.serialString path with
  | none => POutcome.ok none
  | some w =>
    match lpcwstr_to_string (filledBuffer MAXSIZE w) MAXSIZE with
    | none => POutcome.panicked
    | some s => POutcome.ok (some s)

/-- Embeds `build_device_data_with_info` (src/src/lib.rs lines 21-46): for
each info entry in order, enumerate its interfaces (`?` propagates failure)
and pair each interface with that parent entry. -/
def build_device_data_with_info (env : OsEnv) :
    List SP_DEVINFO_DATA → POutcome (List DeviceData)
  | [] => POutcome.ok []
  | info :: rest =>
    POutcome.bind (setup_di_enum_device_interfaces env (some info)) (fun ifds =>
    POutcome.bind (build_device_data_with_info env rest) (fun tail =>
    POutcome.ok (ifds.map (fun i => { interface_data := i, info_data := some info }) ++ tail)))

/-- Embeds `build_device_data_without_info` (src/src/lib.rs lines 48-69): one
global interface enumeration with a null info pointer; every produced entry
has `info_data = none`. -/
def build_device_data_without_info (env : OsEnv) : POutcome (List DeviceData) :=
  POutcome.bind (setup_di_enum_device_interfaces env none) (fun ifds =>
  POutcome.ok (ifds.map (fun i => { interface_data := i, info_data := none })))

/-- Embeds `build_device_data` (src/src/lib.rs lines 71-83): `Ok` from the
device-info enumeration continues with the per-info walk, any `Err(_)` falls
back to the global interface enumeration. -/
def build_device_data (env : OsEnv) : POutcome (List DeviceData) :=
  match setup_di_enum_device_info env with
  | POutcome.ok infos => build_device_data_with_info env infos
  | POutcome.err _ => build_device_data_without_info env
  | POutcome.panicked => POutcome.panicked

/-- The body of the per-device loop of `list_hid_device` (src/src/lib.rs
lines 111-138): resolve the interface detail, open the path, query
attributes (each `?` propagates failure), then build the `HidDevice` whose
field initialisers call the product-string, serial-string and PDO-name
queries in that order. -/
def resolveOne (env : OsEnv) (device_data : DeviceData) : POutcome HidDevice :=
  POutcome.bind (setup_di_get_device_interface_detail env device_data.interface_data)
    (fun detail =>
  POutcome.bind (create_file env detail.device_path 0
      (FILE_SHARE_READ ||| FILE_SHARE_WRITE) OPEN_EXISTING FILE_ATTRIBUTE_NORMAL)
    (fun _ =>
  POutcome.bind (hid_d_get_attributes env detail.device_path) (fun attrs =>
  POutcome.bind (hid_d_get_product_string env detail.device_path) (fun ps =>
  POutcome.bind (hid_d_get_serial_number_string env detail.device_path) (fun ss =>
  POutcome.bind (get_pdo_name env device_data.info_data) (fun pdo =>
  POutcome.ok {
    path := detail.device_path,
    product_id := attrs.ProductID,
    vendor_id := attrs.VendorID,
    product_string := ps,
    serial_number_string := ss,
    dev_inst := some detail.device_info_data.DevInst,
    pdo_name := pdo }))))))

/-- The `for` loop of `list_hid_device` (src/src/lib.rs lines 111-138):
resolve each entry in order, pushing into the result; an error anywhere
discards the partial vector and propagates. -/
def processDevices (env : OsEnv) : List DeviceData → POutcome (List HidDevice)
  | [] => POutcome.ok []
  | dd :: rest =>
    POutcome.bind (resolveOne env dd) (fun h =>
    POutcome.bind (processDevices env rest) (fun hs =>
    POutcome.ok (h :: hs)))

/-- Embeds the Windows `list_hid_device` (src/src/lib.rs lines 90-141):
acquire the class-devs set with
`DIGCF_ALLCLASSES | DIGCF_PRESENT | DIGCF_DEVICEINTERFACE`, build the device
data, then run the per-device loop. -/
def list_hid_device (env : OsEnv) : POutcome (List HidDevice) :=
  POutcome.bind (setup_di_get_class_devs env
      (DIGCF_ALLCLASSES ||| DIGCF_PRESENT ||| DIGCF_DEVICEINTERFACE)) (fun _ =>
  POutcome.bind (build_device_data env) (fun dds =>
  processDevices env dds))

/-- Embeds the non-Windows `list_hid_device` (src/src/lib.rs lines 85-88).
It is a constant: the ambient OS oracle is taken as a parameter only to make
visible that no OS call is consulted before failing. -/
def list_hid_device_unsupported (_env : OsEnv) : Except String Unit :=
  Except.error "unsupported platform"

/-- A benign oracle: empty device set, every call succeeds. -/
def defaultEnv : OsEnv := {
  getClassDevs := fun _ => Except.ok (),
  enumInfoSteps := [EnumStep.failure ERROR_NO_MORE_ITEMS],
  enumInterfaceSteps := fun _ => [EnumStep.failure ERROR_NO_MORE_ITEMS],
  detailProbe := fun _ =>
    { retOk := false, lastError := ERROR_INSUFFICIENT_BUFFER, requiredSize := 4 },
  detailFill := fun _ _ =>
    { retOk := true, lastError := 0, pathUnits := [], infoData := { DevInst := 0 } },
  regProbe := fun _ _ => { retOk := true, lastError := 0, requiredSize := 0 },
  regFill := fun _ _ _ => { retOk := true, lastError := 0, data := [] },
  createFile := fun _ _ _ _ _ => Except.ok (),
  attributes := fun _ => Except.ok { VendorID := 0, ProductID := 0 },
  productString := fun _ => none,
  serialString := fun _ => none }

/-- Oracle with one device node (DevInst 5) exposing one HID interface: the
interface detail resolves to path "HI" ([72, 73]), opening succeeds, the
attribute query answers vendor 0x046D / product 0xC52B, both HidD string
queries fail, and the registry property query reports size 0. -/
def goodEnv : OsEnv := { defaultEnv with
  enumInfoSteps :=
    [EnumStep.success { DevInst := 5 }, EnumStep.failure ERROR_NO_MORE_ITEMS],
  enumInterfaceSteps := fun o =>
    match o with
    | some _ => [EnumStep.success { id := 7 }, EnumStep.failure ERROR_NO_MORE_ITEMS]
    | none => [EnumStep.failure ERROR_NO_MORE_ITEMS],
  detailProbe := fun _ =>
    { retOk := false, lastError := ERROR_INSUFFICIENT_BUFFER, requiredSize := 10 },
  detailFill := fun _ _ =>
    { retOk := true, lastError := 0, pathUnits := [72, 73, 0],
      infoData := { DevInst := 5 } },
  attributes := fun _ => Except.ok { VendorID := 1133, ProductID := 50475 } }

/-- The single record `list_hid_device goodEnv` returns. -/
def goodHid : HidDevice := {
  path := [72, 73],
  product_id := 50475,
  vendor_id := 1133,
  product_string := none,
  serial_number_string := none,
  dev_inst := some 5,
  pdo_name := some [] }

/-- Like `goodEnv`, but the vendor/product attribute query fails with OS
error 5 (access denied). -/
def attrFailEnv : OsEnv := { goodEnv with
  attributes := fun _ => Except.error 5 }

/-- Oracle whose device-info enumeration fails immediately with OS error 5,
while the global (null-parent) interface enumeration yields one interface. -/
def fallbackEnv : OsEnv := { defaultEnv with
  enumInfoSteps := [EnumStep.failure 5],
  enumInterfaceSteps := fun o =>
    match o with
    | none => [EnumStep.success { id := 9 }, EnumStep.failure ERROR_NO_MORE_ITEMS]
    | some _ => [EnumStep.failure ERROR_NO_MORE_ITEMS] }

/-- Like `goodEnv`, but both registry-property calls fail with OS error 5
(access denied) and `required_size` is left at 0. -/
def regFailEnv : OsEnv := { goodEnv with
  regProbe := fun _ _ => { retOk := false, lastError := 5, requiredSize := 0 },
  regFill := fun _ _ _ => { retOk := false, lastError := 5, data := [] } }

/-- Like `goodEnv`, but the interface-detail fill call writes a device path
consisting of one unpaired high surrogate (0xD800 = 55296): not valid
Unicode. -/
def badPathEnv : OsEnv := { goodEnv with
  detailFill := fun _ _ =>
    { retOk := true, lastError := 0, pathUnits := [55296, 0],
      infoData := { DevInst := 5 } } }

/-- Oracle whose device-info enumeration yields one entry and then the
"no more items" sentinel. -/
def enumOkEnv : OsEnv := { defaultEnv with
  enumInfoSteps :=
    [EnumStep.success { DevInst := 3 }, EnumStep.failure ERROR_NO_MORE_ITEMS],
  enumInterfaceSteps := fun o =>
    match o with
    | none => [EnumStep.success { id := 8 }, EnumStep.failure ERROR_NO_MORE_ITEMS]
    | some _ => [EnumStep.failure ERROR_NO_MORE_ITEMS] }

/-- Oracle whose device-info enumeration fails at index 0 with OS error 5 and
whose interface enumeration fails at index 1 with OS error 6. -/
def enumErrEnv : OsEnv := { defaultEnv with
  enumInfoSteps := [EnumStep.failure 5],
  enumInterfaceSteps := fun _ =>
    [EnumStep.success { id := 8 }, EnumStep.failure 6] }

@[simp] theorem POutcome.bind_ok_left {α β : Type} (a : α) (f : α → POutcome β) :
    POutcome.bind (POutcome.ok a) f = f a := rfl

@[simp] theorem POutcome.bind_err_left {α β : Type} (e : Nat) (f : α → POutcome β) :
    POutcome.bind (POutcome.err e) f = POutcome.err e := rfl

@[simp] theorem POutcome.bind_panicked_left {α β : Type} (f : α → POutcome β) :
    POutcome.bind POutcome.panicked f = POutcome.panicked := rfl

theorem POutcome.bind_eq_ok_iff {α β : Type} (x : POutcome α) (f : α → POutcome β)
    (b : β) :
    POutcome.bind x f = POutcome.ok b ↔ ∃ a, x = POutcome.ok a ∧ f a = POutcome.ok b := by
  cases x <;> simp [POutcome.bind]

theorem enumLoop_sentinel {α : Type} (l : List α) (rest : List (EnumStep α)) :
    enumLoop (l.map EnumStep.success ++ EnumStep.failure ERROR_NO_MORE_ITEMS :: rest)
      = POutcome.ok l := by
  induction l with
  | nil => simp [enumLoop]
  | cons a t ih => simp [enumLoop, ih]

theorem enumLoop_fatal {α : Type} (l : List α) (e : Nat)
    (he : e ≠ ERROR_NO_MORE_ITEMS) (rest : List (EnumStep α)) :
    enumLoop (l.map EnumStep.success ++ EnumStep.failure e :: rest) = POutcome.err e := by
  induction l with
  | nil => simp [enumLoop, he]
  | cons a t ih => simp [enumLoop, ih]

theorem resolveOne_attr_err (env : OsEnv) (dd : DeviceData)
    (detail : DeviceInterfaceDetail) (e : Nat)
    (hdetail : setup_di_get_device_interface_detail env dd.interface_data
      = POutcome.ok detail)
    (hopen : create_file env detail.device_path 0 (FILE_SHARE_READ ||| FILE_SHARE_WRITE)
      OPEN_EXISTING FILE_ATTRIBUTE_NORMAL = POutcome.ok ())
    (hattr : hid_d_get_attributes env detail.device_path = POutcome.err e) :
    resolveOne env dd = POutcome.err e := by
  simp only [resolveOne, hdetail, POutcome.bind_ok_left, hopen, hattr,
    POutcome.bind_err_left]

theorem processDevices_append_err (env : OsEnv) (l₁ l₂ : List DeviceData)
    (hs : List HidDevice) (e : Nat)
    (h₁ : processDevices env l₁ = POutcome.ok hs)
    (h₂ : processDevices env l₂ = POutcome.err e) :
    processDevices env (l₁ ++ l₂) = POutcome.err e := by
  induction l₁ generalizing hs with
  | nil => simpa using h₂
  | cons dd t ih =>
    rw [List.cons_append]
    simp only [processDevices] at h₁ ⊢
    rcases (POutcome.bind_eq_ok_iff _ _ _).mp h₁ with ⟨a, ha, hrest⟩
    rcases (POutcome.bind_eq_ok_iff _ _ _).mp hrest with ⟨tl, htl, _⟩
    rw [ha, POutcome.bind_ok_left, ih tl htl, POutcome.bind_err_left]

theorem resolveOne_dev_inst (env : OsEnv) (dd : DeviceData) (h : HidDevice)
    (hres : resolveOne env dd = POutcome.ok h) : h.dev_inst.isSome = true := by
  simp only [resolveOne, POutcome.bind_eq_ok_iff, POutcome.ok.injEq] at hres
  obtain ⟨d, hd, u, hu, a, ha, ps, hps, ss, hss, pdo, hpdo, hfin⟩ := hres
  subst hfin
  rfl

theorem processDevices_dev_inst (env : OsEnv) (l : List DeviceData)
    (devs : List HidDevice) (h : processDevices env l = POutcome.ok devs) :
    ∀ d ∈ devs, d.dev_inst.isSome = true := by
  induction l generalizing devs with
  | nil =>
    simp only [processDevices, POutcome.ok.injEq] at h
    subst h
    simp
  | cons dd t ih =>
    simp only [processDevices, POutcome.bind_eq_ok_iff, POutcome.ok.injEq] at h
    obtain ⟨a, ha, tl, htl, hfin⟩ := h
    subst hfin
    intro d hd
    rcases List.mem_cons.mp hd with h1 | h2
    · subst h1; exact resolveOne_dev_inst env dd d ha
    · exact ih tl htl d h2

theorem build_device_data_without_info_none (env : OsEnv) (dds : List DeviceData)
    (h : build_device_data_without_info env = POutcome.ok dds) :
    ∀ dd ∈ dds, dd.info_data = none := by
  simp only [build_device_data_without_info, POutcome.bind_eq_ok_iff,
    POutcome.ok.injEq] at h
  obtain ⟨ifds, _, hfin⟩ := h
  subst hfin
  intro dd hdd
  rcases List.mem_map.mp hdd with ⟨i, _, hi⟩
  subst hi
  rfl

theorem list_hid_device_eq_processDevices (env : OsEnv) (dds : List DeviceData)
    (hclass : setup_di_get_class_devs env
      (DIGCF_ALLCLASSES ||| DIGCF_PRESENT ||| DIGCF_DEVICEINTERFACE) = POutcome.ok ())
    (hbuild : build_device_data env = POutcome.ok dds) :
    list_hid_device env = processDevices env dds := by
  simp only [list_hid_device, hclass, POutcome.bind_ok_left, hbuild]

/-- C1: code-evaluation for the claim "the physical-device-object name field
is absent (None) whenever the device has no parent DeviceInfoEntry or the
registry-property query fails for any reason; a failure of that query is
never fatal and never yields a present-but-meaningless value."  At an oracle
where both registry-property calls FAIL (OS error 5, `required_size` left 0),
`get_pdo_name` nevertheless returns a PRESENT value — `some []`, the empty
string decoded from the zero-length buffer — because
`setup_di_get_device_registry_property` ignores the results of both OS calls
and always returns `Ok`.  The no-parent half of the claim does hold
(`get_pdo_name env none = ok none`). -/
theorem c1_failed_pdo_query_yields_present_empty_string :
    (regFailEnv.regProbe { DevInst := 5 } SPDRP_PHYSICAL_DEVICE_OBJECT_NAME).retOk = false
    ∧ (regFailEnv.regFill { DevInst := 5 } SPDRP_PHYSICAL_DEVICE_OBJECT_NAME 0).retOk = false
    ∧ get_pdo_name regFailEnv (some { DevInst := 5 }) = POutcome.ok (some [])
    ∧ get_pdo_name regFailEnv none = POutcome.ok none := by
  refine ⟨rfl, rfl, by decide, rfl⟩

/-- C2: code-evaluation for the claim "for every use of the Variable-Length
Query Protocol (interface-detail resolution and registry-property read), a
non-benign first-call failure and any second-call failure are fatal."  The
registry-property read violates this: at an oracle whose first
`SetupDiGetDeviceRegistryPropertyW` call fails with OS error 5 (which is not
`ERROR_INSUFFICIENT_BUFFER`) and whose second call also fails,
`setup_di_get_device_registry_property` returns `Ok []` instead of an error,
because the source ignores both calls' BOOL results and `GetLastError`. -/
theorem c2_registry_read_never_fatal_despite_failures :
    (regFailEnv.regProbe { DevInst := 5 } SPDRP_PHYSICAL_DEVICE_OBJECT_NAME).retOk = false
    ∧ ((regFailEnv.regProbe { DevInst := 5 } SPDRP_PHYSICAL_DEVICE_OBJECT_NAME).lastError
        == ERROR_INSUFFICIENT_BUFFER) = false
    ∧ (regFailEnv.regFill { DevInst := 5 } SPDRP_PHYSICAL_DEVICE_OBJECT_NAME 0).retOk = false
    ∧ setup_di_get_device_registry_property regFailEnv { DevInst := 5 }
        SPDRP_PHYSICAL_DEVICE_OBJECT_NAME = POutcome.ok [] := by
  refine ⟨rfl, by decide, rfl, by decide⟩

/-- C3: if the vendor/product-ID attribute query fails for any single device
(here: the device `dd` after a prefix `l₁` of devices that resolved fine),
`list_hid_device` aborts the entire scan and returns that error to the
caller; since the result is `err e`, it is not `ok` of any sequence, so no
partial sequence of already-resolved records is returned. -/
theorem c3_attribute_failure_aborts_scan (env : OsEnv) (l₁ l₂ : List DeviceData)
    (dd : DeviceData) (hs : List HidDevice) (detail : DeviceInterfaceDetail) (e : Nat)
    (hclass : setup_di_get_class_devs env
      (DIGCF_ALLCLASSES ||| DIGCF_PRESENT ||| DIGCF_DEVICEINTERFACE) = POutcome.ok ())
    (hbuild : build_device_data env = POutcome.ok (l₁ ++ dd :: l₂))
    (hpre : processDevices env l₁ = POutcome.ok hs)
    (hdetail : setup_di_get_device_interface_detail env dd.interface_data
      = POutcome.ok detail)
    (hopen : create_file env detail.device_path 0 (FILE_SHARE_READ ||| FILE_SHARE_WRITE)
      OPEN_EXISTING FILE_ATTRIBUTE_NORMAL = POutcome.ok ())
    (hattr : hid_d_get_attributes env detail.device_path = POutcome.err e) :
    list_hid_device env = POutcome.err e := by
  have hone : resolveOne env dd = POutcome.err e :=
    resolveOne_attr_err env dd detail e hdetail hopen hattr
  have hproc : processDevices env (l₁ ++ dd :: l₂) = POutcome.err e := by
    apply processDevices_append_err env l₁ (dd :: l₂) hs e hpre
    simp only [processDevices, hone, POutcome.bind_err_left]
  rw [list_hid_device_eq_processDevices env _ hclass hbuild, hproc]

/-- C3 witness: at the concrete oracle `attrFailEnv` (one device, attribute
query fails with OS error 5) the whole scan returns that error. -/
theorem c3_witness : list_hid_device attrFailEnv = POutcome.err 5 :=
  c3_attribute_failure_aborts_scan attrFailEnv [] []
    { interface_data := { id := 7 }, info_data := some { DevInst := 5 } } []
    { device_path := [72, 73], device_info_data := { DevInst := 5 } } 5
    (by decide) (by decide) (by decide) (by decide) (by decide) (by decide)

/-- C4: if the device-info enumeration fails (the condition the walker treats
as eligible for fallback is any `Err` from `setup_di_enum_device_info`),
`build_device_data` performs the one global interface enumeration instead
(`build_device_data_without_info`), and every entry it produces carries
`info_data = none`. -/
theorem c4_fallback_entries_have_no_parent_info (env : OsEnv) (e : Nat)
    (dds : List DeviceData) (dd : DeviceData)
    (henum : setup_di_enum_device_info env = POutcome.err e)
    (hok : build_device_data env = POutcome.ok dds)
    (hmem : dd ∈ dds) :
    build_device_data env = build_device_data_without_info env
    ∧ dd.info_data = none := by
  have h1 : build_device_data env = build_device_data_without_info env := by
    simp only [build_device_data, henum]
  exact ⟨h1, build_device_data_without_info_none env dds (h1.symm.trans hok) dd hmem⟩

/-- C4 witness: at `fallbackEnv` (device-info enumeration fails with OS
error 5, global interface enumeration yields one interface) the fallback is
taken and the produced entry has no parent info record. -/
theorem c4_witness :
    build_device_data fallbackEnv = build_device_data_without_info fallbackEnv
    ∧ (DeviceData.mk { id := 9 } none).info_data = none :=
  c4_fallback_entries_have_no_parent_info fallbackEnv 5
    [{ interface_data := { id := 9 }, info_data := none }]
    { interface_data := { id := 9 }, info_data := none }
    (by decide) (by decide) (by decide)

/-- C5: both indexed enumeration primitives walk indices 0, 1, 2, ... and, at
each step, either collect one entry, terminate successfully on the
"no more items" sentinel returning the entries collected so far in index
order, or propagate any other error as fatal; zero items yields `ok []`, not
an error. -/
theorem c5_indexed_enumeration (env : OsEnv) (infoOpt : Option SP_DEVINFO_DATA)
    (infos : List SP_DEVINFO_DATA) (ifds : List SP_DEVICE_INTERFACE_DATA) (e : Nat)
    (r₁ r₂ : List (EnumStep SP_DEVINFO_DATA))
    (r₃ r₄ : List (EnumStep SP_DEVICE_INTERFACE_DATA)) :
    (env.enumInfoSteps
        = infos.map EnumStep.success ++ EnumStep.failure ERROR_NO_MORE_ITEMS :: r₁ →
      setup_di_enum_device_info env = POutcome.ok infos)
    ∧ (e ≠ ERROR_NO_MORE_ITEMS →
       env.enumInfoSteps = infos.map EnumStep.success ++ EnumStep.failure e :: r₂ →
       setup_di_enum_device_info env = POutcome.err e)
    ∧ (env.enumInterfaceSteps infoOpt
        = ifds.map EnumStep.success ++ EnumStep.failure ERROR_NO_MORE_ITEMS :: r₃ →
       setup_di_enum_device_interfaces env infoOpt = POutcome.ok ifds)
    ∧ (e ≠ ERROR_NO_MORE_ITEMS →
       env.enumInterfaceSteps infoOpt
        = ifds.map EnumStep.success ++ EnumStep.failure e :: r₄ →
       setup_di_enum_device_interfaces env infoOpt = POutcome.err e)
    ∧ (env.enumInfoSteps = EnumStep.failure ERROR_NO_MORE_ITEMS :: r₁ →
       setup_di_enum_device_info env = POutcome.ok []) := by
  refine ⟨fun h => ?_, fun he h => ?_, fun h => ?_, fun he h => ?_, fun h => ?_⟩ <;>
    simp only [setup_di_enum_device_info, setup_di_enum_device_interfaces, h]
  · exact enumLoop_sentinel infos r₁
  · exact enumLoop_fatal infos e he r₂
  · exact enumLoop_sentinel ifds r₃
  · exact enumLoop_fatal ifds e he r₄
  · exact enumLoop_sentinel [] r₁

/-- C5 witness: concrete runs of each clause — one collected entry then the
sentinel (`ok` in index order), a fatal error at index 0 (device-info) and at
index 1 (interfaces), and the zero-item scan yielding `ok []`. -/
theorem c5_witness :
    setup_di_enum_device_info enumOkEnv = POutcome.ok [{ DevInst := 3 }]
    ∧ setup_di_enum_device_info enumErrEnv = POutcome.err 5
    ∧ setup_di_enum_device_interfaces enumOkEnv none = POutcome.ok [{ id := 8 }]
    ∧ setup_di_enum_device_interfaces enumErrEnv none = POutcome.err 6
    ∧ setup_di_enum_device_info defaultEnv = POutcome.ok [] := by
  refine ⟨?_, ?_, ?_, ?_, ?_⟩
  · exact (c5_indexed_enumeration enumOkEnv none [{ DevInst := 3 }] [] 0
      [] [] [] []).1 rfl
  · exact (c5_indexed_enumeration enumErrEnv none [] [] 5 [] [] [] []).2.1
      (by decide) rfl
  · exact (c5_indexed_enumeration enumOkEnv none [] [{ id := 8 }] 0
      [] [] [] []).2.2.1 rfl
  · exact (c5_indexed_enumeration enumErrEnv none [] [{ id := 8 }] 6
      [] [] [] []).2.2.2.1 (by decide) rfl
  · exact (c5_indexed_enumeration defaultEnv none [] [] 0 [] [] [] []).2.2.2.2 rfl

/-- C6: a device whose product-string and serial-number-string queries both
fail (the OS answers FALSE; each query is issued once against the fixed
`MAXSIZE` buffer and its failure absorbed as `ok none`, never as an error)
still appears in the sequence, with those two fields absent and the mandatory
fields — path, vendor_id, product_id — populated from the interface detail
and the attribute query. -/
theorem c6_missing_strings_device_still_listed (env : OsEnv) (dd : DeviceData)
    (rest : List DeviceData) (detail : DeviceInterfaceDetail)
    (attrs : HIDD_ATTRIBUTES) (pdo : Option WStr) (others : List HidDevice)
    (hdetail : setup_di_get_device_interface_detail env dd.interface_data
      = POutcome.ok detail)
    (hopen : create_file env detail.device_path 0 (FILE_SHARE_READ ||| FILE_SHARE_WRITE)
      OPEN_EXISTING FILE_ATTRIBUTE_NORMAL = POutcome.ok ())
    (hattr : hid_d_get_attributes env detail.device_path = POutcome.ok attrs)
    (hps : env.productString detail.device_path = none)
    (hss : env.serialString detail.device_path = none)
    (hpdo : get_pdo_name env dd.info_data = POutcome.ok pdo)
    (hrest : processDevices env rest = POutcome.ok others) :
    hid_d_get_product_string env detail.device_path = POutcome.ok none
    ∧ hid_d_get_serial_number_string env detail.device_path = POutcome.ok none
    ∧ processDevices env (dd :: rest) = POutcome.ok
        ({ path := detail.device_path, product_id := attrs.ProductID,
           vendor_id := attrs.VendorID, product_string := none,
           serial_number_string := none,
           dev_inst := some detail.device_info_data.DevInst,
           pdo_name := pdo } :: others) := by
  have h1 : hid_d_get_product_string env detail.device_path = POutcome.ok none := by
    simp only [hid_d_get_product_string, hps]
  have h2 : hid_d_get_serial_number_string env detail.device_path
      = POutcome.ok none := by
    simp only [hid_d_get_serial_number_string, hss]
  refine ⟨h1, h2, ?_⟩
  simp only [processDevices, resolveOne, hdetail, POutcome.bind_ok_left, hopen,
    hattr, h1, h2, hpdo, hrest]

/-- C6 witness: at `goodEnv` (both string queries fail) the single device is
returned with both string fields `none` and path/vendor/product populated. -/
theorem c6_witness :
    hid_d_get_product_string goodEnv [72, 73] = POutcome.ok none
    ∧ hid_d_get_serial_number_string goodEnv [72, 73] = POutcome.ok none
    ∧ processDevices goodEnv
        [{ interface_data := { id := 7 }, info_data := some { DevInst := 5 } }]
      = POutcome.ok [goodHid] :=
  c6_missing_strings_device_still_listed goodEnv
    { interface_data := { id := 7 }, info_data := some { DevInst := 5 } } []
    { device_path := [72, 73], device_info_data := { DevInst := 5 } }
    { VendorID := 1133, ProductID := 50475 } (some []) []
    (by decide) (by decide) (by decide) (by decide) (by decide) (by decide) (by decide)

/-- C7: on a platform lacking the native device-enumeration facility,
`list_hid_device` fails with the error labeled "unsupported platform"; the
result is the same for every OS oracle, i.e. no OS call is consulted before
failing. -/
theorem c7_unsupported_platform (env : OsEnv) :
    list_hid_device_unsupported env = Except.error "unsupported platform"
    ∧ list_hid_device_unsupported env = list_hid_device_unsupported defaultEnv :=
  ⟨rfl, rfl⟩

/-- C8: two runs of `list_hid_device` against the same OS oracle (the OS
answering both runs identically) that both succeed yield equal sequences of
`HidDevice` — the same fields in the same order. -/
theorem c8_idempotent_scan (env : OsEnv) (ds₁ ds₂ : List HidDevice)
    (h₁ : list_hid_device env = POutcome.ok ds₁)
    (h₂ : list_hid_device env = POutcome.ok ds₂) : ds₁ = ds₂ :=
  POutcome.ok.inj (h₁.symm.trans h₂)

/-- C8 witness: at `goodEnv` the scan succeeds with `[goodHid]`, and two such
runs agree. -/
theorem c8_witness :
    list_hid_device goodEnv = POutcome.ok [goodHid] ∧ [goodHid] = [goodHid] :=
  ⟨by decide, c8_idempotent_scan goodEnv [goodHid] [goodHid] (by decide) (by decide)⟩

/-- C9: every `HidDevice` in a successful result of the Windows
`list_hid_device` has `dev_inst` present (`isSome`), because the
interface-detail query always fills a fresh device-info record and the field
is set to `some detail.device_info_data.DevInst` unconditionally — including
devices produced via the fallback (no-parent-info) enumeration path. -/
theorem c9_dev_inst_always_present (env : OsEnv) (devs : List HidDevice)
    (d : HidDevice) (h : list_hid_device env = POutcome.ok devs) (hmem : d ∈ devs) :
    d.dev_inst.isSome = true := by
  simp only [list_hid_device, POutcome.bind_eq_ok_iff] at h
  obtain ⟨u, _, dds, _, hproc⟩ := h
  exact processDevices_dev_inst env dds devs hproc d hmem

/-- C9 witness: the record returned at `goodEnv` has a present `dev_inst`. -/
theorem c9_witness : goodHid.dev_inst.isSome = true :=
  c9_dev_inst_always_present goodEnv [goodHid] goodHid (by decide) (by decide)

/-- C10: if a wide string obtained from the OS is not valid Unicode (its
NUL-truncated code-unit sequence fails UTF-16 validation), the wide-string
conversion `lpcwstr_to_string` panics via `unwrap` (modelled as `none`)
instead of returning an error; consequently `list_hid_device` can terminate
by panic rather than through its declared `Result` error channel, as it does
at `badPathEnv`, whose device path contains an unpaired high surrogate. -/
theorem c10_invalid_unicode_panics :
    (∀ (ws : WStr) (n : Nat),
      validUtf16 ((ws.take n).takeWhile (fun c => c != 0)) = false →
      lpcwstr_to_string ws n = none)
    ∧ list_hid_device badPathEnv = POutcome.panicked := by
  constructor
  · intro ws n h
    simp [lpcwstr_to_string, h]
  · decide

/-- C10 witness: the one-unit string `[0xD800]` (unpaired high surrogate) is
rejected by UTF-16 validation, its conversion panics, and the scan at
`badPathEnv` ends in a panic. -/
theorem c10_witness :
    validUtf16 ((([55296] : WStr).take 1).takeWhile (fun c => c != 0)) = false
    ∧ lpcwstr_to_string [55296] 1 = none
    ∧ list_hid_device badPathEnv = POutcome.panicked :=
  ⟨by decide, c10_invalid_unicode_panics.1 [55296] 1 (by decide),
    c10_invalid_unicode_panics.2⟩
